import Mathlib

/-!
Verification of the request-construction and rate-gating layer of the
async-pychasing client (src/async_pychasing/_session.py and _client.py),
as a shallow embedding in Lean.

Conventions of the embedding:
* The Python ellipsis sentinel `...` marking an unset optional parameter is
  embedded as `Option.none`; a provided value `v` (including falsy values
  such as `""`, `0` and `False`) is `Option.some v`.
* `str | Enum` union parameters are embedded as `PyVal`; the helper `p`
  mirrors the source function `p` of _session.py (a raw string passes
  through, an enum member resolves to its wire value).
* Machine strings and integers are Lean `String` and `Int`; percent-encoding
  of query values by the transport layer is abstracted to the identity, so a
  query is a list of (key, value) string pairs in emission order.
* The external encoder primitives of the httpprep package are not part of
  this repository; `optPairs` models them from the spec (Parameter Encoder,
  sections 2 and 4.2): a key is emitted iff its value is provided, in the
  caller-supplied order.
-/

namespace AsyncPychasing

/-- A value of Python type `str | SomeEnum`: a raw string passes through
unchanged, an enum member carries its associated wire value. -/
inductive PyVal where
  | str (s : String)
  | enum (wire : String)
deriving DecidableEq

/-- Source `p` (_session.py line 50): return `v` if `v` is a `str`, else
`v.value`.  The unset case is handled by `Option.map p` at call sites. -/
def p : PyVal → String
  | .str s => s
  | .enum w => w

/-- A value of Python type `str | int`, as used for `uploader`, `creator`
and player-id components. -/
inductive StrInt where
  | ofStr (s : String)
  | ofInt (i : Int)
deriving DecidableEq

/-- String rendering of a `str | int` value, as Python `str()` does when
the value is placed in a query. -/
def StrInt.render : StrInt → String
  | .ofStr s => s
  | .ofInt n => toString n

/-- Modelled from the spec (Parameter Encoder, sections 2 and 4.2, realised
by the external httpprep package): from an ordered list of (key, optional
value) pairs, emit exactly the provided pairs, in order.  A key whose value
is in the unset state is never emitted. -/
def optPairs {β : Type} (l : List (String × Option β)) : List (String × β) :=
  l.filterMap (fun q => q.2.map (fun v => (q.1, v)))

/-- The JSON values appearing in request bodies of this client: strings and
booleans. -/
inductive JVal where
  | str (s : String)
  | bool (b : Bool)
deriving DecidableEq

/-- The structured parts of a URL built by httpprep.URL in the source:
protocol, host (domain plus top-level domain) and path segments, with the
accumulated query pairs. -/
structure URLParts where
  scheme : String
  host : String
  path : List String
  queries : List (String × String) := []
deriving DecidableEq

/-- The request target of a call: either a continuation-cursor URL used
verbatim, or a URL built from parts. -/
inductive Target where
  | cursor (url : String)
  | built (u : URLParts)
deriving DecidableEq

/-- Rendered query-string suffix of a URL (percent-encoding abstracted). -/
def renderQuery : List (String × String) → String
  | [] => ""
  | qs => "?" ++ String.intercalate "&" (qs.map (fun q => q.1 ++ "=" ++ q.2))

/-- The URL string a target denotes: a cursor is used verbatim, a built URL
is rendered from its parts. -/
def Target.url : Target → String
  | .cursor s => s
  | .built u =>
      u.scheme ++ "://" ++ u.host ++ "/" ++ String.intercalate "/" u.path
        ++ renderQuery u.queries

/-- One fully resolved outgoing HTTP request: method, target, headers, an
optional JSON body (field order as assembled by the source), and the value
of the `ssl` keyword passed to the aiohttp transport call.  The multipart
file payload of upload_replay is not modelled (no claim depends on it). -/
structure RequestDescriptor where
  method : String
  target : Target
  headers : List (String × String)
  body : Option (List (String × JVal)) := none
  ssl : Bool
deriving DecidableEq

/-- The query pairs of a request: a cursor target carries none of its own. -/
def reqQueries (r : RequestDescriptor) : List (String × String) :=
  match r.target with
  | .cursor _ => []
  | .built u => u.queries

/-- Query pairs of a fallible request-construction result. -/
def reqQueriesE : Except String RequestDescriptor → List (String × String)
  | .error _ => []
  | .ok r => reqQueries r

/-- JSON body pairs of a request (empty when the request has no body). -/
def reqBody (r : RequestDescriptor) : List (String × JVal) :=
  r.body.getD []

/-- The keys of a query or body pair list, in emission order. -/
def keys {β : Type} (qs : List (String × β)) : List String :=
  qs.map Prod.fst

/-- The sublist of query pairs carrying a given key, in emission order. -/
def keyFilter (k : String) (qs : List (String × String)) : List (String × String) :=
  qs.filter (fun q => q.1 == k)

/-- The Authorization header set on every authenticated operation. -/
def authHeaders (tok : String) : List (String × String) :=
  [("Authorization", tok)]

/-- The Cookie header of the auxiliary operations, emitted only when the
cookie argument is provided (source: format_dict with the ellipsis check). -/
def cookieHeaders (cookie : Option String) : List (String × String) :=
  optPairs [("Cookie", cookie)]

/-- Source Session.ping (_session.py line 85): GET https://ballchasing.com/api
with the Authorization header, no query. -/
def ping (tok : String) : RequestDescriptor :=
  { method := "GET"
    target := .built { scheme := "https", host := "ballchasing.com", path := ["api"] }
    headers := authHeaders tok
    ssl := false }

/-- Source Session.upload_replay (_session.py line 121): POST to
/api/v2/upload with visibility and an optional group as query parameters.
The multipart file payload is not modelled. -/
def upload_replay (tok : String) (visibility : PyVal) (group : Option String) :
    RequestDescriptor :=
  { method := "POST"
    target := .built
      { scheme := "https", host := "ballchasing.com", path := ["api", "v2", "upload"]
        queries := optPairs [("visibility", some (p visibility)), ("group", group)] }
    headers := authHeaders tok
    ssl := false }

/-- The keyword arguments of Session.list_replays (_session.py line 169).
`none` is the unset ellipsis sentinel. -/
structure ListReplaysArgs where
  next : Option String := none
  title : Option String := none
  player_names : Option (List String) := none
  player_ids : Option (List (String × StrInt)) := none
  playlists : Option (List PyVal) := none
  season : Option PyVal := none
  match_result : Option PyVal := none
  min_rank : Option PyVal := none
  max_rank : Option PyVal := none
  pro : Option Bool := none
  uploader : Option StrInt := none
  group : Option String := none
  map : Option PyVal := none
  created_before : Option String := none
  created_after : Option String := none
  replay_date_before : Option String := none
  replay_date_after : Option String := none
  count : Option Int := none
  sort_by : Option PyVal := none
  sort_dir : Option PyVal := none

/-- The single batch query assignment of Session.list_replays
(_session.py lines 293-302), as ordered (wire key, optional value) pairs.
A provided bool `pro` is rendered lowercase by the source expression
`str(pro).lower()`. -/
def scalarQueriesLR (a : ListReplaysArgs) : List (String × Option String) :=
  [("title", a.title),
   ("season", a.season.map p),
   ("match-result", a.match_result.map p),
   ("min-rank", a.min_rank.map p),
   ("max-rank", a.max_rank.map p),
   ("pro", a.pro.map (fun b => if b then "true" else "false")),
   ("uploader", a.uploader.map StrInt.render),
   ("group", a.group),
   ("map", a.map.map p),
   ("created-before", a.created_before),
   ("created-after", a.created_after),
   ("replay-date-before", a.replay_date_before),
   ("replay-date-after", a.replay_date_after),
   ("count", a.count.map toString),
   ("sort-by", a.sort_by.map p),
   ("sort-dir", a.sort_dir.map p)]

/-- The repeated player-name query parameters (_session.py lines 303-305):
one `player-name` pair per list element, in order. -/
def playerNameQueries : Option (List String) → List (String × String)
  | none => []
  | some ns => ns.map (fun n => ("player-name", n))

/-- The repeated player-id query parameters (_session.py lines 306-309):
one `player-id` pair per (platform, id) element, rendered `platform:id`. -/
def playerIdQueries : Option (List (String × StrInt)) → List (String × String)
  | none => []
  | some ps => ps.map (fun q => ("player-id", q.1 ++ ":" ++ q.2.render))

/-- The repeated playlist query parameters (_session.py lines 310-312):
one `playlist` pair per element, enums resolved by `p`. -/
def playlistQueries : Option (List PyVal) → List (String × String)
  | none => []
  | some ls => ls.map (fun pl => ("playlist", p pl))

/-- All query pairs of a filter-based list_replays request, in the order the
source appends them: the scalar batch, then player names, player ids and
playlists. -/
def list_replays_queries (a : ListReplaysArgs) : List (String × String) :=
  optPairs (scalarQueriesLR a) ++ playerNameQueries a.player_names
    ++ playerIdQueries a.player_ids ++ playlistQueries a.playlists

/-- The count guard shared by Session.list_replays (line 274) and
Session.list_groups (line 631), translated verbatim: the Python chained
comparison `1 > count > 200` means `1 > count and count > 200`. -/
def countGuard : Option Int → Bool
  | none => false
  | some c => decide (1 > c) && decide (c > 200)

/-- Source Session.list_replays (_session.py lines 169-321): raise ValueError
when the count guard fires, otherwise GET either the continuation cursor
verbatim (when `next` is provided) or the built /api/replays URL. -/
def list_replays (tok : String) (a : ListReplaysArgs) :
    Except String RequestDescriptor :=
  if countGuard a.count then
    .error "\"count\" must be between 1 and 200"
  else
    match a.next with
    | some url =>
        .ok { method := "GET", target := .cursor url, headers := authHeaders tok
              ssl := false }
    | none =>
        .ok { method := "GET"
              target := .built
                { scheme := "https", host := "ballchasing.com"
                  path := ["api", "replays"], queries := list_replays_queries a }
              headers := authHeaders tok
              ssl := false }

/-- Source Session.get_replay (_session.py line 324). -/
def get_replay (tok replay_id : String) : RequestDescriptor :=
  { method := "GET"
    target := .built
      { scheme := "https", host := "ballchasing.com", path := ["api", "replays", replay_id] }
    headers := authHeaders tok
    ssl := false }

/-- Source Session.delete_replay (_session.py line 364). -/
def delete_replay (tok replay_id : String) : RequestDescriptor :=
  { method := "DELETE"
    target := .built
      { scheme := "https", host := "ballchasing.com", path := ["api", "replays", replay_id] }
    headers := authHeaders tok
    ssl := false }

/-- Source Session.patch_replay (_session.py line 405): PATCH with a JSON
body assembled from title, visibility and group, unset fields removed
(source: OverloadDict.remove_values on the ellipsis sentinel). -/
def patch_replay (tok replay_id : String) (title : Option String)
    (visibility : Option PyVal) (group : Option String) : RequestDescriptor :=
  { method := "PATCH"
    target := .built
      { scheme := "https", host := "ballchasing.com", path := ["api", "replays", replay_id] }
    headers := authHeaders tok
    body := some (optPairs
      [("title", title.map JVal.str),
       ("visibility", visibility.map (fun v => JVal.str (p v))),
       ("group", group.map JVal.str)])
    ssl := false }

/-- Source Session.download_replay (_session.py line 463). -/
def download_replay (tok replay_id : String) : RequestDescriptor :=
  { method := "GET"
    target := .built
      { scheme := "https", host := "ballchasing.com"
        path := ["api", "replays", replay_id, "file"] }
    headers := authHeaders tok
    ssl := false }

/-- Source Session.create_group (_session.py line 509): POST /api/groups with
a JSON body of name, player_identification, team_identification and an
optional parent. -/
def create_group (tok name : String) (player_identification team_identification : PyVal)
    (parent : Option String) : RequestDescriptor :=
  { method := "POST"
    target := .built
      { scheme := "https", host := "ballchasing.com", path := ["api", "groups"] }
    headers := authHeaders tok
    body := some (optPairs
      [("name", some (JVal.str name)),
       ("player_identification", some (JVal.str (p player_identification))),
       ("team_identification", some (JVal.str (p team_identification))),
       ("parent", parent.map JVal.str)])
    ssl := false }

/-- The keyword arguments of Session.list_groups (_session.py line 571). -/
structure ListGroupsArgs where
  next : Option String := none
  name : Option String := none
  creator : Option StrInt := none
  group : Option String := none
  created_before : Option String := none
  created_after : Option String := none
  count : Option Int := none
  sort_by : Option PyVal := none
  sort_dir : Option PyVal := none

/-- The batch query assignment of Session.list_groups
(_session.py lines 650-655), as ordered (wire key, optional value) pairs. -/
def scalarQueriesLG (a : ListGroupsArgs) : List (String × Option String) :=
  [("name", a.name),
   ("creator", a.creator.map StrInt.render),
   ("group", a.group),
   ("created-before", a.created_before),
   ("created-after", a.created_after),
   ("count", a.count.map toString),
   ("sort-by", a.sort_by.map p),
   ("sort-dir", a.sort_dir.map p)]

/-- All query pairs of a filter-based list_groups request. -/
def list_groups_queries (a : ListGroupsArgs) : List (String × String) :=
  optPairs (scalarQueriesLG a)

/-- Source Session.list_groups (_session.py lines 571-664): count guard,
then either the continuation cursor verbatim or the built /api/groups URL. -/
def list_groups (tok : String) (a : ListGroupsArgs) :
    Except String RequestDescriptor :=
  if countGuard a.count then
    .error "\"count\" must be between 1 and 200"
  else
    match a.next with
    | some url =>
        .ok { method := "GET", target := .cursor url, headers := authHeaders tok
              ssl := false }
    | none =>
        .ok { method := "GET"
              target := .built
                { scheme := "https", host := "ballchasing.com"
                  path := ["api", "groups"], queries := list_groups_queries a }
              headers := authHeaders tok
              ssl := false }

/-- Source Session.get_group (_session.py line 667). -/
def get_group (tok group_id : String) : RequestDescriptor :=
  { method := "GET"
    target := .built
      { scheme := "https", host := "ballchasing.com", path := ["api", "groups", group_id] }
    headers := authHeaders tok
    ssl := false }

/-- Source Session.delete_group (_session.py line 708). -/
def delete_group (tok group_id : String) : RequestDescriptor :=
  { method := "DELETE"
    target := .built
      { scheme := "https", host := "ballchasing.com", path := ["api", "groups", group_id] }
    headers := authHeaders tok
    ssl := false }

/-- Source Session.patch_group (_session.py line 749): PATCH with a JSON body
assembled from player_identification, team_identification, parent and
shared, unset fields removed. -/
def patch_group (tok group_id : String)
    (player_identification team_identification : Option PyVal)
    (parent : Option String) (shared : Option Bool) : RequestDescriptor :=
  { method := "PATCH"
    target := .built
      { scheme := "https", host := "ballchasing.com", path := ["api", "groups", group_id] }
    headers := authHeaders tok
    body := some (optPairs
      [("player_identification", player_identification.map (fun v => JVal.str (p v))),
       ("team_identification", team_identification.map (fun v => JVal.str (p v))),
       ("parent", parent.map JVal.str),
       ("shared", shared.map JVal.bool)])
    ssl := false }

/-- Source Session.maps (_session.py line 815). -/
def maps (tok : String) : RequestDescriptor :=
  { method := "GET"
    target := .built
      { scheme := "https", host := "ballchasing.com", path := ["api", "maps"] }
    headers := authHeaders tok
    ssl := false }

/-- Source Session.get_threejs (_session.py line 851): the auxiliary /dyn
endpoint, authenticated by an optional Cookie header only. -/
def get_threejs (replay_id : String) (cookie : Option String) : RequestDescriptor :=
  { method := "GET"
    target := .built
      { scheme := "https", host := "ballchasing.com"
        path := ["dyn", "replay", replay_id, "threejs"] }
    headers := cookieHeaders cookie
    ssl := false }

/-- Source Session.get_timeline (_session.py line 903). -/
def get_timeline (replay_id : String) (cookie : Option String) : RequestDescriptor :=
  { method := "GET"
    target := .built
      { scheme := "https", host := "ballchasing.com"
        path := ["dyn", "replay", replay_id, "timeline"] }
    headers := cookieHeaders cookie
    ssl := false }

/-- Source Session.export_csv (_session.py line 953): the /dl/stats CSV
endpoint, path segments interpolating the resolved stat name. -/
def export_csv (group_id : String) (stat : PyVal) (cookie : Option String) :
    RequestDescriptor :=
  { method := "GET"
    target := .built
      { scheme := "https", host := "ballchasing.com"
        path := ["dl", "stats", "group-" ++ p stat, group_id,
                 group_id ++ "-" ++ p stat ++ ".csv"] }
    headers := cookieHeaders cookie
    ssl := false }

/-- The two HTTP error sides distinguished by the source. -/
inductive ErrorSide where
  | client
  | server
deriving DecidableEq

/-- Source _session.py lines 28-29: classify a status code into Client
(400-499), Server (500-599) or none, from the status code alone. -/
def errorSide (status : Nat) : Option ErrorSide :=
  if 400 ≤ status ∧ status < 500 then some .client
  else if 500 ≤ status ∧ status < 600 then some .server
  else none

/-- Display label of an error side, as printed by the source. -/
def ErrorSide.label : ErrorSide → String
  | .client => "Client"
  | .server => "Server"

/-- A parsed JSON document, as `await response.json()` can return it:
null, a boolean, a number (abstracted to integers), a string, an array or
an object. -/
inductive Json where
  | null
  | bool (b : Bool)
  | num (n : Int)
  | str (s : String)
  | arr (xs : List Json)
  | obj (kvs : List (String × Json))

/-- Python truthiness of a JSON value: None, False, 0, the empty string,
the empty array and the empty object are falsy. -/
def Json.truthy : Json → Bool
  | .null => false
  | .bool b => b
  | .num n => n != 0
  | .str s => s != ""
  | .arr xs => !xs.isEmpty
  | .obj kvs => !kvs.isEmpty

/-- Substring membership, as the Python `in` operator on two strings. -/
def strContains (s pat : String) : Bool :=
  (List.range (s.length + 1)).any (fun i => pat.data.isPrefixOf (s.data.drop i))

/-- The Python expression `"error" in j` on a parsed JSON value: key
membership for an object, element membership for an array, substring
membership for a string, and a TypeError for any non-iterable value. -/
def Json.hasErrorKey : Json → Except String Bool
  | .obj kvs => .ok (kvs.any (fun q => q.1 == "error"))
  | .arr xs => .ok (xs.any (fun x => match x with
                                     | .str s => s == "error"
                                     | _ => false))
  | .str s => .ok (strContains s "error")
  | .null => .error "TypeError"
  | .bool _ => .error "TypeError"
  | .num _ => .error "TypeError"

/-- The Python expression `j["error"]`: field lookup on an object (a
missing key is a KeyError), a TypeError on every other value. -/
def Json.getError : Json → Except String Json
  | .obj kvs => match (kvs.find? (fun q => q.1 == "error")).map Prod.snd with
                | some v => .ok v
                | none => .error "KeyError"
  | _ => .error "TypeError"

/-- Source _session.py lines 42-44: build the error-description prefix.
An unset or falsy parsed body, or one without an `error` member, yields
the empty description; a truthy non-iterable body, a non-object body whose
membership test succeeds, or a non-string `error` member raises a
TypeError (string concatenation with a non-string), which escapes — the
source guards only the JSON parsing step with try/except. -/
def errorDescription (j : Json) : Except String String :=
  if j.truthy then
    match j.hasErrorKey with
    | .error e => .error e
    | .ok false => .ok ""
    | .ok true =>
        match j.getError with
        | .ok (.str s) => .ok ("(" ++ s ++ ") ")
        | .ok _ => .error "TypeError"
        | .error e => .error e
  else .ok ""

/-- An HTTP response as observed by _print_error: status code, decoded
reason phrase (the byte-decoding fallback chain of lines 31-37 always
succeeds, so the reason is embedded already decoded), the parsed JSON
body, or `none` when the body is not parseable JSON (the try/except of
lines 38-41 turns any parse failure into None), and the request URL. -/
structure HttpResponse where
  status : Nat
  reason : String
  jsonBody : Option Json
  url : String

/-- Source _print_error (_session.py lines 23-47): no output for a
non-error status; otherwise the diagnostic line, whose description part is
computed by `errorDescription` and may raise (an `Except.error` result
models an escaping Python exception).  The ANSI color codes around the
printed line are abstracted away. -/
def _print_error (r : HttpResponse) : Except String (Option String) :=
  match errorSide r.status with
  | none => .ok none
  | some side =>
      match (match r.jsonBody with
             | none => Except.ok ""
             | some j => errorDescription j) with
      | .error e => .error e
      | .ok description =>
          .ok (some (toString r.status ++ " " ++ side.label ++ " Error: "
                ++ r.reason ++ " " ++ (description ++ ("for url: " ++ r.url))))

/-- The tail of every session method (for example _session.py lines
316-321): perform the transport call, run the diagnostic when requested
(an exception escaping from it aborts the call), and otherwise return the
raw response unconditionally — there is no status-dependent raise. -/
def sessionCall (transport : RequestDescriptor → HttpResponse)
    (print_error : Bool) (req : RequestDescriptor) :
    Except String (HttpResponse × Option String) :=
  let r := transport req
  if print_error then
    match _print_error r with
    | .error e => .error e
    | .ok msg => .ok (r, msg)
  else .ok (r, none)

/-- The closed set of session operations (one per public method). -/
inductive Operation where
  | ping
  | upload_replay
  | list_replays
  | get_replay
  | delete_replay
  | patch_replay
  | download_replay
  | create_group
  | list_groups
  | get_group
  | delete_group
  | patch_group
  | maps
  | get_threejs
  | get_timeline
  | export_csv
deriving DecidableEq

/-- The rate-limit decoration attached to each method at class-definition
time, read off the decorators in _session.py: ping carries a concrete
class-level limiter of 2 calls per second (line 84), ten methods carry the
rlim placeholder, and five methods are undecorated. -/
inductive Decoration where
  | undecorated
  | placeholder
  | classLimiter (callsPerSecond : Nat)
deriving DecidableEq

/-- Decoration of each operation, from the decorators in _session.py. -/
def decoration : Operation → Decoration
  | .ping => .classLimiter 2
  | .list_replays => .placeholder
  | .get_replay => .placeholder
  | .delete_replay => .placeholder
  | .patch_replay => .placeholder
  | .download_replay => .placeholder
  | .create_group => .placeholder
  | .list_groups => .placeholder
  | .get_group => .placeholder
  | .delete_group => .placeholder
  | .patch_group => .placeholder
  | .upload_replay => .undecorated
  | .maps => .undecorated
  | .get_threejs => .undecorated
  | .get_timeline => .undecorated
  | .export_csv => .undecorated

/-- Source Client.__init__ (_client.py lines 43-51): per-operation budget
trackers are created only when auto_rate_limit is true; otherwise the
rate-limiter table is None and Session.__init__ binds nothing. -/
def clientRateLimiters (auto_rate_limit : Bool) (tier : List (Operation × Nat)) :
    Option (List (Operation × Nat)) :=
  if auto_rate_limit then some tier else none

/-- Modelled from the spec (sections 4.1 and 9; the rlim package realising
the gating is external to this repository): a method acquires from a budget
tracker before its transport call iff it is decorated with a class-level
RateLimiter, or is an rlim placeholder onto which Session.__init__ bound a
tracker — which happens exactly when the client was constructed with
auto_rate_limit true.  Undecorated methods never acquire. -/
def acquiresRateLimit (auto_rate_limit : Bool) (op : Operation) : Bool :=
  match decoration op with
  | .classLimiter _ => true
  | .placeholder => auto_rate_limit
  | .undecorated => false

/-- Whether a request is made with TLS certificate verification disabled
(the aiohttp `ssl` keyword is False) while any URL built by this client
carries the https scheme (a cursor URL is caller-supplied, not built). -/
def sslDisabledHttps (r : RequestDescriptor) : Bool :=
  !r.ssl && (match r.target with
             | .cursor _ => true
             | .built u => u.scheme == "https")

/-- `sslDisabledHttps` lifted over fallible request construction. -/
def sslDisabledHttpsE : Except String RequestDescriptor → Bool
  | .error _ => true
  | .ok r => sslDisabledHttps r

/-! Helper lemmas about the encoder primitives. -/

lemma countGuard_eq_false (c : Option Int) : countGuard c = false := by
  cases c with
  | none => rfl
  | some c =>
      simp only [countGuard, Bool.and_eq_false_iff, decide_eq_false_iff_not]
      omega

lemma keys_append {β : Type} (l m : List (String × β)) :
    keys (l ++ m) = keys l ++ keys m := by
  simp [keys]

lemma optPairs_append {β : Type} (l m : List (String × Option β)) :
    optPairs (l ++ m) = optPairs l ++ optPairs m := by
  simp [optPairs]

lemma optPairs_cons_none {β : Type} (k0 : String) (l : List (String × Option β)) :
    optPairs ((k0, none) :: l) = optPairs l := rfl

lemma optPairs_cons_some {β : Type} (k0 : String) (v : β)
    (l : List (String × Option β)) :
    optPairs ((k0, some v) :: l) = (k0, v) :: optPairs l := rfl

lemma mem_keys_optPairs {β : Type} (k : String) (l : List (String × Option β)) :
    k ∈ keys (optPairs l) ↔ ∃ v, (k, some v) ∈ l := by
  induction l with
  | nil => simp [optPairs, keys]
  | cons q l ih =>
      obtain ⟨k0, v0⟩ := q
      cases v0 with
      | none =>
          rw [optPairs_cons_none]
          simpa using ih
      | some v0 =>
          rw [optPairs_cons_some]
          simp only [keys, List.map_cons, List.mem_cons, Prod.mk.injEq,
            Option.some.injEq] at *
          constructor
          · rintro (rfl | h)
            · exact ⟨v0, Or.inl ⟨rfl, rfl⟩⟩
            · obtain ⟨v, hv⟩ := ih.mp h
              exact ⟨v, Or.inr hv⟩
          · rintro ⟨v, ⟨rfl, rfl⟩ | hv⟩
            · exact Or.inl rfl
            · exact Or.inr (ih.mpr ⟨v, hv⟩)

lemma mem_optPairs {β : Type} (k : String) (v : β) (l : List (String × Option β)) :
    (k, v) ∈ optPairs l ↔ (k, some v) ∈ l := by
  induction l with
  | nil => simp [optPairs]
  | cons q l ih =>
      obtain ⟨k0, v0⟩ := q
      cases v0 with
      | none =>
          rw [optPairs_cons_none]
          simpa using ih
      | some v0 =>
          rw [optPairs_cons_some]
          simp [List.mem_cons, ih]

lemma keyFilter_append (k : String) (l m : List (String × String)) :
    keyFilter k (l ++ m) = keyFilter k l ++ keyFilter k m := by
  simp [keyFilter]

lemma keyFilter_eq_nil (k : String) (qs : List (String × String))
    (h : k ∉ keys qs) : keyFilter k qs = [] := by
  induction qs with
  | nil => rfl
  | cons q l ih =>
      simp only [keys, List.map_cons, List.mem_cons, not_or] at h
      have hne : (q.1 == k) = false := by
        simp only [beq_eq_false_iff_ne, ne_eq]
        exact fun hq => h.1 hq.symm
      simp only [keyFilter, List.filter_cons, hne, if_neg Bool.false_ne_true]
      exact ih (by simpa [keys] using h.2)

lemma keyFilter_optPairs_eq_nil (k : String) (l : List (String × Option String))
    (h : k ∉ keys l) : keyFilter k (optPairs l) = [] := by
  apply keyFilter_eq_nil
  rw [mem_keys_optPairs]
  rintro ⟨v, hv⟩
  exact h (List.mem_map_of_mem Prod.fst hv)

lemma keyFilter_map_same {α : Type} (k : String) (f : α → String) (ns : List α) :
    keyFilter k (ns.map (fun n => (k, f n))) = ns.map (fun n => (k, f n)) := by
  rw [keyFilter, List.filter_eq_self]
  intro q hq
  obtain ⟨n, _, rfl⟩ := List.mem_map.mp hq
  simp

lemma keyFilter_map_ne {α : Type} (k k0 : String) (h : k0 ≠ k) (f : α → String)
    (ns : List α) : keyFilter k (ns.map (fun n => (k0, f n))) = [] := by
  apply keyFilter_eq_nil
  simp [keys, List.map_map, Function.comp]
  intro n _
  exact h

lemma keys_scalarQueriesLR (a : ListReplaysArgs) :
    keys (scalarQueriesLR a) =
      ["title", "season", "match-result", "min-rank", "max-rank", "pro",
       "uploader", "group", "map", "created-before", "created-after",
       "replay-date-before", "replay-date-after", "count", "sort-by",
       "sort-dir"] := rfl

lemma keys_scalarQueriesLG (a : ListGroupsArgs) :
    keys (scalarQueriesLG a) =
      ["name", "creator", "group", "created-before", "created-after",
       "count", "sort-by", "sort-dir"] := rfl

lemma mem_keys_playerNameQueries (k : String) (x : Option (List String)) :
    k ∈ keys (playerNameQueries x) ↔
      k = "player-name" ∧ ∃ ns, x = some ns ∧ ns ≠ [] := by
  cases x with
  | none => simp [playerNameQueries, keys]
  | some ns =>
      cases ns with
      | nil => simp [playerNameQueries, keys]
      | cons n ns => simp [playerNameQueries, keys, eq_comm]

lemma mem_keys_playerIdQueries (k : String) (x : Option (List (String × StrInt))) :
    k ∈ keys (playerIdQueries x) ↔
      k = "player-id" ∧ ∃ ps, x = some ps ∧ ps ≠ [] := by
  cases x with
  | none => simp [playerIdQueries, keys]
  | some ps =>
      cases ps with
      | nil => simp [playerIdQueries, keys]
      | cons q ps => simp [playerIdQueries, keys, eq_comm]

lemma mem_keys_playlistQueries (k : String) (x : Option (List PyVal)) :
    k ∈ keys (playlistQueries x) ↔
      k = "playlist" ∧ ∃ ls, x = some ls ∧ ls ≠ [] := by
  cases x with
  | none => simp [playlistQueries, keys]
  | some ls =>
      cases ls with
      | nil => simp [playlistQueries, keys]
      | cons pl ls => simp [playlistQueries, keys, eq_comm]

/-- Bridge: with `next` unset, list_replays always succeeds and its target
is the built /api/replays URL carrying exactly `list_replays_queries`. -/
lemma list_replays_eq_built (tok : String) (a : ListReplaysArgs)
    (h : a.next = none) :
    list_replays tok a =
      .ok { method := "GET"
            target := .built
              { scheme := "https", host := "ballchasing.com"
                path := ["api", "replays"], queries := list_replays_queries a }
            headers := authHeaders tok
            ssl := false } := by
  simp [list_replays, countGuard_eq_false, h]

/-- Bridge: with `next` unset, list_groups always succeeds and its target
is the built /api/groups URL carrying exactly `list_groups_queries`. -/
lemma list_groups_eq_built (tok : String) (a : ListGroupsArgs)
    (h : a.next = none) :
    list_groups tok a =
      .ok { method := "GET"
            target := .built
              { scheme := "https", host := "ballchasing.com"
                path := ["api", "groups"], queries := list_groups_queries a }
            headers := authHeaders tok
            ssl := false } := by
  simp [list_groups, countGuard_eq_false, h]

lemma keyFilter_cons_self (k v : String) (qs : List (String × String)) :
    keyFilter k ((k, v) :: qs) = (k, v) :: keyFilter k qs := by
  simp [keyFilter]

lemma keyFilter_playerNameQueries (k : String) (h : k ≠ "player-name")
    (x : Option (List String)) : keyFilter k (playerNameQueries x) = [] := by
  cases x with
  | none => rfl
  | some ns => exact keyFilter_map_ne k "player-name" (Ne.symm h) _ ns

lemma keyFilter_playerIdQueries (k : String) (h : k ≠ "player-id")
    (x : Option (List (String × StrInt))) : keyFilter k (playerIdQueries x) = [] := by
  cases x with
  | none => rfl
  | some ps => exact keyFilter_map_ne k "player-id" (Ne.symm h) _ ps

lemma keyFilter_playlistQueries (k : String) (h : k ≠ "playlist")
    (x : Option (List PyVal)) : keyFilter k (playlistQueries x) = [] := by
  cases x with
  | none => rfl
  | some ls => exact keyFilter_map_ne k "playlist" (Ne.symm h) _ ls

/-! Claim theorems. -/

/-- C1 (code_bug evaluation): the count guard of list_replays and
list_groups, a verbatim translation of the Python chained comparison
`1 > count > 200`, is unsatisfiable, so a provided out-of-range count such
as 0 or 201 is never rejected: both operations succeed and pass the
out-of-range value through into the query string, contradicting their own
docstrings and the spec requirement of a local ValueError before any
network call. -/
theorem c1_count_guard_never_rejects :
    (∀ c : Int, countGuard (some c) = false) ∧
    list_replays "T" { count := some 0 } =
      .ok { method := "GET"
            target := .built
              { scheme := "https", host := "ballchasing.com"
                path := ["api", "replays"], queries := [("count", "0")] }
            headers := [("Authorization", "T")]
            body := none
            ssl := false } ∧
    list_groups "T" { count := some 201 } =
      .ok { method := "GET"
            target := .built
              { scheme := "https", host := "ballchasing.com"
                path := ["api", "groups"], queries := [("count", "201")] }
            headers := [("Authorization", "T")]
            body := none
            ssl := false } :=
  ⟨fun c => countGuard_eq_false (some c), rfl, rfl⟩

/-- C2: whenever the continuation cursor `next` is provided, the request
target is the cursor string verbatim and every co-supplied filter argument
(the whole argument record `ar` or `ag` is arbitrary) has no effect on the
built request. -/
theorem c2_cursor_replaces_filters (tok c : String) (ar : ListReplaysArgs)
    (ag : ListGroupsArgs) :
    list_replays tok {ar with next := some c} =
      .ok { method := "GET", target := .cursor c, headers := authHeaders tok
            body := none, ssl := false } ∧
    list_groups tok {ag with next := some c} =
      .ok { method := "GET", target := .cursor c, headers := authHeaders tok
            body := none, ssl := false } ∧
    Target.url (Target.cursor c) = c := by
  refine ⟨?_, ?_, rfl⟩ <;>
    simp [list_replays, list_groups, countGuard_eq_false]

/-- C3: for every operation with optional parameters, a parameter left in
the unset (ellipsis) state contributes no key at all to the built query
string, JSON body or Cookie header, with every other argument arbitrary;
provided falsy values (empty string, 0, false) are still emitted. -/
theorem c3_unset_params_omitted :
    (∀ tok (a : ListReplaysArgs), "title" ∉ keys (reqQueriesE (list_replays tok {a with next := none, title := none}))) ∧
    (∀ tok (a : ListReplaysArgs), "season" ∉ keys (reqQueriesE (list_replays tok {a with next := none, season := none}))) ∧
    (∀ tok (a : ListReplaysArgs), "match-result" ∉ keys (reqQueriesE (list_replays tok {a with next := none, match_result := none}))) ∧
    (∀ tok (a : ListReplaysArgs), "min-rank" ∉ keys (reqQueriesE (list_replays tok {a with next := none, min_rank := none}))) ∧
    (∀ tok (a : ListReplaysArgs), "max-rank" ∉ keys (reqQueriesE (list_replays tok {a with next := none, max_rank := none}))) ∧
    (∀ tok (a : ListReplaysArgs), "pro" ∉ keys (reqQueriesE (list_replays tok {a with next := none, pro := none}))) ∧
    (∀ tok (a : ListReplaysArgs), "uploader" ∉ keys (reqQueriesE (list_replays tok {a with next := none, uploader := none}))) ∧
    (∀ tok (a : ListReplaysArgs), "group" ∉ keys (reqQueriesE (list_replays tok {a with next := none, group := none}))) ∧
    (∀ tok (a : ListReplaysArgs), "map" ∉ keys (reqQueriesE (list_replays tok {a with next := none, map := none}))) ∧
    (∀ tok (a : ListReplaysArgs), "created-before" ∉ keys (reqQueriesE (list_replays tok {a with next := none, created_before := none}))) ∧
    (∀ tok (a : ListReplaysArgs), "created-after" ∉ keys (reqQueriesE (list_replays tok {a with next := none, created_after := none}))) ∧
    (∀ tok (a : ListReplaysArgs), "replay-date-before" ∉ keys (reqQueriesE (list_replays tok {a with next := none, replay_date_before := none}))) ∧
    (∀ tok (a : ListReplaysArgs), "replay-date-after" ∉ keys (reqQueriesE (list_replays tok {a with next := none, replay_date_after := none}))) ∧
    (∀ tok (a : ListReplaysArgs), "count" ∉ keys (reqQueriesE (list_replays tok {a with next := none, count := none}))) ∧
    (∀ tok (a : ListReplaysArgs), "sort-by" ∉ keys (reqQueriesE (list_replays tok {a with next := none, sort_by := none}))) ∧
    (∀ tok (a : ListReplaysArgs), "sort-dir" ∉ keys (reqQueriesE (list_replays tok {a with next := none, sort_dir := none}))) ∧
    (∀ tok (a : ListReplaysArgs), "player-name" ∉ keys (reqQueriesE (list_replays tok {a with next := none, player_names := none}))) ∧
    (∀ tok (a : ListReplaysArgs), "player-id" ∉ keys (reqQueriesE (list_replays tok {a with next := none, player_ids := none}))) ∧
    (∀ tok (a : ListReplaysArgs), "playlist" ∉ keys (reqQueriesE (list_replays tok {a with next := none, playlists := none}))) ∧
    (∀ tok (a : ListGroupsArgs), "name" ∉ keys (reqQueriesE (list_groups tok {a with next := none, name := none}))) ∧
    (∀ tok (a : ListGroupsArgs), "creator" ∉ keys (reqQueriesE (list_groups tok {a with next := none, creator := none}))) ∧
    (∀ tok (a : ListGroupsArgs), "group" ∉ keys (reqQueriesE (list_groups tok {a with next := none, group := none}))) ∧
    (∀ tok (a : ListGroupsArgs), "created-before" ∉ keys (reqQueriesE (list_groups tok {a with next := none, created_before := none}))) ∧
    (∀ tok (a : ListGroupsArgs), "created-after" ∉ keys (reqQueriesE (list_groups tok {a with next := none, created_after := none}))) ∧
    (∀ tok (a : ListGroupsArgs), "count" ∉ keys (reqQueriesE (list_groups tok {a with next := none, count := none}))) ∧
    (∀ tok (a : ListGroupsArgs), "sort-by" ∉ keys (reqQueriesE (list_groups tok {a with next := none, sort_by := none}))) ∧
    (∀ tok (a : ListGroupsArgs), "sort-dir" ∉ keys (reqQueriesE (list_groups tok {a with next := none, sort_dir := none}))) ∧
    (∀ tok vis, "group" ∉ keys (reqQueries (upload_replay tok vis none))) ∧
    (∀ tok rid v g, "title" ∉ keys (reqBody (patch_replay tok rid none v g))) ∧
    (∀ tok rid t g, "visibility" ∉ keys (reqBody (patch_replay tok rid t none g))) ∧
    (∀ tok rid t v, "group" ∉ keys (reqBody (patch_replay tok rid t v none))) ∧
    (∀ tok n pid tid, "parent" ∉ keys (reqBody (create_group tok n pid tid none))) ∧
    (∀ tok gid tid par sh, "player_identification" ∉ keys (reqBody (patch_group tok gid none tid par sh))) ∧
    (∀ tok gid pid par sh, "team_identification" ∉ keys (reqBody (patch_group tok gid pid none par sh))) ∧
    (∀ tok gid pid tid sh, "parent" ∉ keys (reqBody (patch_group tok gid pid tid none sh))) ∧
    (∀ tok gid pid tid par, "shared" ∉ keys (reqBody (patch_group tok gid pid tid par none))) ∧
    (∀ rid, "Cookie" ∉ keys ((get_threejs rid none).headers)) ∧
    (∀ rid, "Cookie" ∉ keys ((get_timeline rid none).headers)) ∧
    (∀ tok (a : ListReplaysArgs), ("title", "") ∈ reqQueriesE (list_replays tok {a with next := none, title := some ""})) ∧
    (∀ tok (a : ListReplaysArgs), ("count", "0") ∈ reqQueriesE (list_replays tok {a with next := none, count := some 0})) ∧
    (∀ tok rid t v, ("group", JVal.str "") ∈ reqBody (patch_replay tok rid t v (some ""))) ∧
    (∀ tok gid pid tid par, ("shared", JVal.bool false) ∈ reqBody (patch_group tok gid pid tid par (some false))) := by
  refine ⟨?_, ?_, ?_, ?_, ?_, ?_, ?_, ?_, ?_, ?_, ?_, ?_, ?_, ?_, ?_, ?_, ?_,
          ?_, ?_, ?_, ?_, ?_, ?_, ?_, ?_, ?_, ?_, ?_, ?_, ?_, ?_, ?_, ?_, ?_,
          ?_, ?_, ?_, ?_, ?_, ?_, ?_, ?_⟩
  · intro tok a
    rw [list_replays_eq_built _ _ rfl]
    simp [reqQueriesE, reqQueries, list_replays_queries, keys_append,
          mem_keys_optPairs, scalarQueriesLR, mem_keys_playerNameQueries,
          mem_keys_playerIdQueries, mem_keys_playlistQueries]
  · intro tok a
    rw [list_replays_eq_built _ _ rfl]
    simp [reqQueriesE, reqQueries, list_replays_queries, keys_append,
          mem_keys_optPairs, scalarQueriesLR, mem_keys_playerNameQueries,
          mem_keys_playerIdQueries, mem_keys_playlistQueries]
  · intro tok a
    rw [list_replays_eq_built _ _ rfl]
    simp [reqQueriesE, reqQueries, list_replays_queries, keys_append,
          mem_keys_optPairs, scalarQueriesLR, mem_keys_playerNameQueries,
          mem_keys_playerIdQueries, mem_keys_playlistQueries]
  · intro tok a
    rw [list_replays_eq_built _ _ rfl]
    simp [reqQueriesE, reqQueries, list_replays_queries, keys_append,
          mem_keys_optPairs, scalarQueriesLR, mem_keys_playerNameQueries,
          mem_keys_playerIdQueries, mem_keys_playlistQueries]
  · intro tok a
    rw [list_replays_eq_built _ _ rfl]
    simp [reqQueriesE, reqQueries, list_replays_queries, keys_append,
          mem_keys_optPairs, scalarQueriesLR, mem_keys_playerNameQueries,
          mem_keys_playerIdQueries, mem_keys_playlistQueries]
  · intro tok a
    rw [list_replays_eq_built _ _ rfl]
    simp [reqQueriesE, reqQueries, list_replays_queries, keys_append,
          mem_keys_optPairs, scalarQueriesLR, mem_keys_playerNameQueries,
          mem_keys_playerIdQueries, mem_keys_playlistQueries]
  · intro tok a
    rw [list_replays_eq_built _ _ rfl]
    simp [reqQueriesE, reqQueries, list_replays_queries, keys_append,
          mem_keys_optPairs, scalarQueriesLR, mem_keys_playerNameQueries,
          mem_keys_playerIdQueries, mem_keys_playlistQueries]
  · intro tok a
    rw [list_replays_eq_built _ _ rfl]
    simp [reqQueriesE, reqQueries, list_replays_queries, keys_append,
          mem_keys_optPairs, scalarQueriesLR, mem_keys_playerNameQueries,
          mem_keys_playerIdQueries, mem_keys_playlistQueries]
  · intro tok a
    rw [list_replays_eq_built _ _ rfl]
    simp [reqQueriesE, reqQueries, list_replays_queries, keys_append,
          mem_keys_optPairs, scalarQueriesLR, mem_keys_playerNameQueries,
          mem_keys_playerIdQueries, mem_keys_playlistQueries]
  · intro tok a
    rw [list_replays_eq_built _ _ rfl]
    simp [reqQueriesE, reqQueries, list_replays_queries, keys_append,
          mem_keys_optPairs, scalarQueriesLR, mem_keys_playerNameQueries,
          mem_keys_playerIdQueries, mem_keys_playlistQueries]
  · intro tok a
    rw [list_replays_eq_built _ _ rfl]
    simp [reqQueriesE, reqQueries, list_replays_queries, keys_append,
          mem_keys_optPairs, scalarQueriesLR, mem_keys_playerNameQueries,
          mem_keys_playerIdQueries, mem_keys_playlistQueries]
  · intro tok a
    rw [list_replays_eq_built _ _ rfl]
    simp [reqQueriesE, reqQueries, list_replays_queries, keys_append,
          mem_keys_optPairs, scalarQueriesLR, mem_keys_playerNameQueries,
          mem_keys_playerIdQueries, mem_keys_playlistQueries]
  · intro tok a
    rw [list_replays_eq_built _ _ rfl]
    simp [reqQueriesE, reqQueries, list_replays_queries, keys_append,
          mem_keys_optPairs, scalarQueriesLR, mem_keys_playerNameQueries,
          mem_keys_playerIdQueries, mem_keys_playlistQueries]
  · intro tok a
    rw [list_replays_eq_built _ _ rfl]
    simp [reqQueriesE, reqQueries, list_replays_queries, keys_append,
          mem_keys_optPairs, scalarQueriesLR, mem_keys_playerNameQueries,
          mem_keys_playerIdQueries, mem_keys_playlistQueries]
  · intro tok a
    rw [list_replays_eq_built _ _ rfl]
    simp [reqQueriesE, reqQueries, list_replays_queries, keys_append,
          mem_keys_optPairs, scalarQueriesLR, mem_keys_playerNameQueries,
          mem_keys_playerIdQueries, mem_keys_playlistQueries]
  · intro tok a
    rw [list_replays_eq_built _ _ rfl]
    simp [reqQueriesE, reqQueries, list_replays_queries, keys_append,
          mem_keys_optPairs, scalarQueriesLR, mem_keys_playerNameQueries,
          mem_keys_playerIdQueries, mem_keys_playlistQueries]
  · intro tok a
    rw [list_replays_eq_built _ _ rfl]
    simp [reqQueriesE, reqQueries, list_replays_queries, keys_append,
          mem_keys_optPairs, scalarQueriesLR, mem_keys_playerNameQueries,
          mem_keys_playerIdQueries, mem_keys_playlistQueries]
  · intro tok a
    rw [list_replays_eq_built _ _ rfl]
    simp [reqQueriesE, reqQueries, list_replays_queries, keys_append,
          mem_keys_optPairs, scalarQueriesLR, mem_keys_playerNameQueries,
          mem_keys_playerIdQueries, mem_keys_playlistQueries]
  · intro tok a
    rw [list_replays_eq_built _ _ rfl]
    simp [reqQueriesE, reqQueries, list_replays_queries, keys_append,
          mem_keys_optPairs, scalarQueriesLR, mem_keys_playerNameQueries,
          mem_keys_playerIdQueries, mem_keys_playlistQueries]
  · intro tok a
    rw [list_groups_eq_built _ _ rfl]
    simp [reqQueriesE, reqQueries, list_groups_queries, mem_keys_optPairs,
          scalarQueriesLG]
  · intro tok a
    rw [list_groups_eq_built _ _ rfl]
    simp [reqQueriesE, reqQueries, list_groups_queries, mem_keys_optPairs,
          scalarQueriesLG]
  · intro tok a
    rw [list_groups_eq_built _ _ rfl]
    simp [reqQueriesE, reqQueries, list_groups_queries, mem_keys_optPairs,
          scalarQueriesLG]
  · intro tok a
    rw [list_groups_eq_built _ _ rfl]
    simp [reqQueriesE, reqQueries, list_groups_queries, mem_keys_optPairs,
          scalarQueriesLG]
  · intro tok a
    rw [list_groups_eq_built _ _ rfl]
    simp [reqQueriesE, reqQueries, list_groups_queries, mem_keys_optPairs,
          scalarQueriesLG]
  · intro tok a
    rw [list_groups_eq_built _ _ rfl]
    simp [reqQueriesE, reqQueries, list_groups_queries, mem_keys_optPairs,
          scalarQueriesLG]
  · intro tok a
    rw [list_groups_eq_built _ _ rfl]
    simp [reqQueriesE, reqQueries, list_groups_queries, mem_keys_optPairs,
          scalarQueriesLG]
  · intro tok a
    rw [list_groups_eq_built _ _ rfl]
    simp [reqQueriesE, reqQueries, list_groups_queries, mem_keys_optPairs,
          scalarQueriesLG]
  · intro tok vis
    simp [upload_replay, reqQueries, mem_keys_optPairs]
  · intro tok rid v g
    simp [patch_replay, reqBody, mem_keys_optPairs]
  · intro tok rid t g
    simp [patch_replay, reqBody, mem_keys_optPairs]
  · intro tok rid t v
    simp [patch_replay, reqBody, mem_keys_optPairs]
  · intro tok n pid tid
    simp [create_group, reqBody, mem_keys_optPairs]
  · intro tok gid tid par sh
    simp [patch_group, reqBody, mem_keys_optPairs]
  · intro tok gid pid par sh
    simp [patch_group, reqBody, mem_keys_optPairs]
  · intro tok gid pid tid sh
    simp [patch_group, reqBody, mem_keys_optPairs]
  · intro tok gid pid tid par
    simp [patch_group, reqBody, mem_keys_optPairs]
  · intro rid
    simp [get_threejs, cookieHeaders, keys, optPairs]
  · intro rid
    simp [get_timeline, cookieHeaders, keys, optPairs]
  · intro tok a
    rw [list_replays_eq_built _ _ rfl]
    simp [reqQueriesE, reqQueries, list_replays_queries, mem_optPairs,
          scalarQueriesLR]
  · intro tok a
    rw [list_replays_eq_built _ _ rfl]
    simp [reqQueriesE, reqQueries, list_replays_queries, mem_optPairs,
          scalarQueriesLR]
    exact Or.inl rfl
  · intro tok rid t v
    simp [patch_replay, reqBody, mem_optPairs]
  · intro tok gid pid tid par
    simp [patch_group, reqBody, mem_optPairs]

/-- C4 counterexample: with auto-rate-limiting disabled, ping does not
bypass rate gating — it is decorated at class-definition time with a
concrete rlim.RateLimiter (2 calls per second), independent of the client
configuration. -/
theorem c4_counterexample_ping_gated :
    acquiresRateLimit false Operation.ping = true := rfl

/-- C4 amended: with auto-rate-limiting disabled no budget trackers are
created at client construction and every operation except ping bypasses
rate gating; ping alone remains gated by its class-level limiter of 2
calls per second, regardless of client configuration. -/
theorem c4_gating_disabled_amended :
    (∀ tier, clientRateLimiters false tier = none) ∧
    (∀ op : Operation, op ≠ Operation.ping → acquiresRateLimit false op = false) ∧
    acquiresRateLimit false Operation.ping = true ∧
    decoration Operation.ping = Decoration.classLimiter 2 := by
  refine ⟨fun tier => rfl, ?_, rfl, rfl⟩
  intro op h
  cases op <;> first | rfl | exact absurd rfl h

/-- C4 witness: the amended theorem applied at a concrete operation. -/
theorem c4_gating_disabled_witness :
    clientRateLimiters false [] = none ∧
    acquiresRateLimit false Operation.maps = false :=
  ⟨c4_gating_disabled_amended.1 [],
   c4_gating_disabled_amended.2.1 Operation.maps (by decide)⟩

/-- C5 counterexample: the error-reporting step can raise.  For a 404
response whose body parses to the JSON array ["error"], the source
evaluates `"error" in response_json` to True and then indexes the list
with a string — a TypeError that escapes (only the JSON parsing step is
guarded by try/except), so the dispatched call itself fails instead of
returning the raw response. -/
theorem c5_counterexample_reporting_raises :
    _print_error ⟨404, "Not Found", some (Json.arr [Json.str "error"]), "u"⟩ =
      .error "TypeError" ∧
    sessionCall (fun _ => ⟨404, "Not Found", some (Json.arr [Json.str "error"]), "u"⟩)
        true (ping "T") = .error "TypeError" :=
  ⟨rfl, rfl⟩

/-- C5 amended: the dispatch tail has no status-dependent raise — with
error printing disabled the raw response is returned for every status,
and with it enabled the raw response is returned whenever the reporting
step succeeds; when the error-response body is not parseable JSON the
reporting step always succeeds and simply omits the description from the
diagnostic.  (But the reporting step is not exception-free for every
parseable body: see the counterexample.) -/
theorem c5_raw_response_amended :
    (∀ (transport : RequestDescriptor → HttpResponse) (req : RequestDescriptor),
       sessionCall transport false req = .ok (transport req, none)) ∧
    (∀ (transport : RequestDescriptor → HttpResponse) (req : RequestDescriptor)
       (msg : Option String),
       _print_error (transport req) = .ok msg →
       sessionCall transport true req = .ok (transport req, msg)) ∧
    (∀ r : HttpResponse, r.jsonBody = none → ∃ m, _print_error r = .ok m) ∧
    (∀ r : HttpResponse, 400 ≤ r.status → r.status < 500 → r.jsonBody = none →
       _print_error r =
         .ok (some (toString r.status ++ " " ++ "Client" ++ " Error: "
               ++ r.reason ++ " " ++ ("for url: " ++ r.url)))) ∧
    (∀ r : HttpResponse, 500 ≤ r.status → r.status < 600 → r.jsonBody = none →
       _print_error r =
         .ok (some (toString r.status ++ " " ++ "Server" ++ " Error: "
               ++ r.reason ++ " " ++ ("for url: " ++ r.url)))) := by
  refine ⟨fun transport req => rfl, ?_, ?_, ?_, ?_⟩
  · intro transport req msg h
    simp [sessionCall, h]
  · intro r h3
    simp only [_print_error, h3]
    cases errorSide r.status <;> simp
  · intro r h1 h2 h3
    have hs : errorSide r.status = some .client := by
      simp only [errorSide]
      rw [if_pos ⟨h1, h2⟩]
    simp [_print_error, hs, h3, ErrorSide.label]
  · intro r h1 h2 h3
    have hs : errorSide r.status = some .server := by
      simp only [errorSide]
      rw [if_neg (by omega), if_pos ⟨h1, h2⟩]
    simp [_print_error, hs, h3, ErrorSide.label]

/-- C5 witness: the amended theorem applied to a concrete transport,
request and unparseable-body 404 response. -/
theorem c5_raw_response_witness :
    sessionCall (fun _ => ⟨404, "Not Found", none, "u"⟩) true (ping "T") =
      .ok (⟨404, "Not Found", none, "u"⟩,
           some "404 Client Error: Not Found for url: u") ∧
    _print_error ⟨404, "Not Found", none, "u"⟩ =
      .ok (some "404 Client Error: Not Found for url: u") :=
  ⟨c5_raw_response_amended.2.1 (fun _ => ⟨404, "Not Found", none, "u"⟩)
     (ping "T") (some "404 Client Error: Not Found for url: u")
     (by simpa using c5_raw_response_amended.2.2.2.1
           ⟨404, "Not Found", none, "u"⟩ (by decide) (by decide) rfl),
   by simpa using c5_raw_response_amended.2.2.2.1
        ⟨404, "Not Found", none, "u"⟩ (by decide) (by decide) rfl⟩

/-- C6: a repeated filter provided with N values is encoded as exactly N
occurrences of its wire key, one pair per value, in the caller-supplied
order, never collapsed or de-duplicated: filtering the built query string
of list_replays by the wire key returns precisely the input list mapped to
pairs, whatever the other arguments are. -/
theorem c6_repeated_filters_exact (tok : String) (a : ListReplaysArgs)
    (ns : List String) (ids : List (String × StrInt)) (pls : List PyVal) :
    keyFilter "player-name" (reqQueriesE (list_replays tok
        {a with next := none, player_names := some ns, player_ids := some ids,
                playlists := some pls}))
      = ns.map (fun n => ("player-name", n)) ∧
    keyFilter "player-id" (reqQueriesE (list_replays tok
        {a with next := none, player_names := some ns, player_ids := some ids,
                playlists := some pls}))
      = ids.map (fun q => ("player-id", q.1 ++ ":" ++ q.2.render)) ∧
    keyFilter "playlist" (reqQueriesE (list_replays tok
        {a with next := none, player_names := some ns, player_ids := some ids,
                playlists := some pls}))
      = pls.map (fun pl => ("playlist", p pl)) ∧
    (keyFilter "player-name" (reqQueriesE (list_replays tok
        {a with next := none, player_names := some ns, player_ids := some ids,
                playlists := some pls}))).length = ns.length ∧
    (keyFilter "player-id" (reqQueriesE (list_replays tok
        {a with next := none, player_names := some ns, player_ids := some ids,
                playlists := some pls}))).length = ids.length ∧
    (keyFilter "playlist" (reqQueriesE (list_replays tok
        {a with next := none, player_names := some ns, player_ids := some ids,
                playlists := some pls}))).length = pls.length := by
  have hn : keyFilter "player-name" (reqQueriesE (list_replays tok
      {a with next := none, player_names := some ns, player_ids := some ids,
              playlists := some pls})) = ns.map (fun n => ("player-name", n)) := by
    rw [list_replays_eq_built _ _ rfl]
    simp only [reqQueriesE, reqQueries, list_replays_queries, keyFilter_append,
               playerNameQueries, playerIdQueries, playlistQueries]
    rw [keyFilter_optPairs_eq_nil _ _ (by simp [keys_scalarQueriesLR]),
        keyFilter_map_same "player-name" (fun n => n) ns,
        keyFilter_map_ne "player-name" "player-id" (by decide)
          (fun q => q.1 ++ ":" ++ q.2.render) ids,
        keyFilter_map_ne "player-name" "playlist" (by decide) (fun pl => p pl) pls]
    simp
  have hi : keyFilter "player-id" (reqQueriesE (list_replays tok
      {a with next := none, player_names := some ns, player_ids := some ids,
              playlists := some pls}))
        = ids.map (fun q => ("player-id", q.1 ++ ":" ++ q.2.render)) := by
    rw [list_replays_eq_built _ _ rfl]
    simp only [reqQueriesE, reqQueries, list_replays_queries, keyFilter_append,
               playerNameQueries, playerIdQueries, playlistQueries]
    rw [keyFilter_optPairs_eq_nil _ _ (by simp [keys_scalarQueriesLR]),
        keyFilter_map_ne "player-id" "player-name" (by decide) (fun n => n) ns,
        keyFilter_map_same "player-id" (fun q => q.1 ++ ":" ++ q.2.render) ids,
        keyFilter_map_ne "player-id" "playlist" (by decide) (fun pl => p pl) pls]
    simp
  have hp : keyFilter "playlist" (reqQueriesE (list_replays tok
      {a with next := none, player_names := some ns, player_ids := some ids,
              playlists := some pls})) = pls.map (fun pl => ("playlist", p pl)) := by
    rw [list_replays_eq_built _ _ rfl]
    simp only [reqQueriesE, reqQueries, list_replays_queries, keyFilter_append,
               playerNameQueries, playerIdQueries, playlistQueries]
    rw [keyFilter_optPairs_eq_nil _ _ (by simp [keys_scalarQueriesLR]),
        keyFilter_map_ne "playlist" "player-name" (by decide) (fun n => n) ns,
        keyFilter_map_ne "playlist" "player-id" (by decide)
          (fun q => q.1 ++ ":" ++ q.2.render) ids,
        keyFilter_map_same "playlist" (fun pl => p pl) pls]
    simp
  exact ⟨hn, hi, hp, by rw [hn, List.length_map], by rw [hi, List.length_map],
         by rw [hp, List.length_map]⟩

/-- C7: the error classification is a function of the status code alone:
400-499 classifies as client error, 500-599 as server error, everything
else as none. -/
theorem c7_status_classification (s : Nat) :
    (400 ≤ s → s < 500 → errorSide s = some ErrorSide.client) ∧
    (500 ≤ s → s < 600 → errorSide s = some ErrorSide.server) ∧
    (s < 400 ∨ 600 ≤ s → errorSide s = none) := by
  unfold errorSide
  refine ⟨fun h1 h2 => ?_, fun h1 h2 => ?_, fun h => ?_⟩ <;>
    split_ifs <;> first | rfl | omega

/-- C7 witness: 404 is a client error, 503 a server error, 200 neither. -/
theorem c7_witness :
    errorSide 404 = some ErrorSide.client ∧
    errorSide 503 = some ErrorSide.server ∧
    errorSide 200 = none :=
  ⟨(c7_status_classification 404).1 (by decide) (by decide),
   (c7_status_classification 503).2.1 (by decide) (by decide),
   (c7_status_classification 200).2.2 (Or.inl (by decide))⟩

/-- C8: upload_replay, maps, get_threejs, get_timeline and export_csv are
undecorated in the source and never acquire from any rate-gate budget
tracker, whatever the client configuration. -/
theorem c8_ungated_operations :
    ∀ b : Bool,
      acquiresRateLimit b Operation.upload_replay = false ∧
      acquiresRateLimit b Operation.maps = false ∧
      acquiresRateLimit b Operation.get_threejs = false ∧
      acquiresRateLimit b Operation.get_timeline = false ∧
      acquiresRateLimit b Operation.export_csv = false := by
  decide

/-- C9: a provided boolean `pro` filter is encoded as exactly one `pro`
query pair carrying the lowercase wire token true or false, whatever the
other arguments are; with `pro` unset, no `pro` key is emitted at all. -/
theorem c9_pro_lowercase_wire_token (tok : String) (a : ListReplaysArgs)
    (b : Bool) :
    keyFilter "pro" (reqQueriesE (list_replays tok
        {a with next := none, pro := some b}))
      = [("pro", if b then "true" else "false")] ∧
    "pro" ∉ keys (reqQueriesE (list_replays tok
        {a with next := none, pro := none})) := by
  constructor
  · rw [list_replays_eq_built _ _ rfl]
    have hsplit : scalarQueriesLR {a with next := none, pro := some b} =
        [("title", a.title), ("season", a.season.map p),
         ("match-result", a.match_result.map p), ("min-rank", a.min_rank.map p),
         ("max-rank", a.max_rank.map p)]
        ++ ("pro", some (if b then "true" else "false")) ::
        [("uploader", a.uploader.map StrInt.render), ("group", a.group),
         ("map", a.map.map p), ("created-before", a.created_before),
         ("created-after", a.created_after),
         ("replay-date-before", a.replay_date_before),
         ("replay-date-after", a.replay_date_after),
         ("count", a.count.map toString), ("sort-by", a.sort_by.map p),
         ("sort-dir", a.sort_dir.map p)] := rfl
    simp only [reqQueriesE, reqQueries, list_replays_queries, hsplit,
               optPairs_append, optPairs_cons_some, keyFilter_append,
               keyFilter_cons_self]
    rw [keyFilter_optPairs_eq_nil _ _ (by simp [keys]),
        keyFilter_optPairs_eq_nil _ _ (by simp [keys]),
        keyFilter_playerNameQueries _ (by decide),
        keyFilter_playerIdQueries _ (by decide),
        keyFilter_playlistQueries _ (by decide)]
    simp
  · rw [list_replays_eq_built _ _ rfl]
    simp [reqQueriesE, reqQueries, list_replays_queries, keys_append,
          mem_keys_optPairs, scalarQueriesLR, mem_keys_playerNameQueries,
          mem_keys_playerIdQueries, mem_keys_playlistQueries]

/-- C10: every operation builds its URL with the https scheme yet invokes
the transport with ssl=False (certificate verification disabled), for
every argument combination. -/
theorem c10_ssl_disabled_everywhere :
    (∀ tok, sslDisabledHttps (ping tok) = true) ∧
    (∀ tok vis g, sslDisabledHttps (upload_replay tok vis g) = true) ∧
    (∀ tok a, sslDisabledHttpsE (list_replays tok a) = true) ∧
    (∀ tok rid, sslDisabledHttps (get_replay tok rid) = true) ∧
    (∀ tok rid, sslDisabledHttps (delete_replay tok rid) = true) ∧
    (∀ tok rid t v g, sslDisabledHttps (patch_replay tok rid t v g) = true) ∧
    (∀ tok rid, sslDisabledHttps (download_replay tok rid) = true) ∧
    (∀ tok n pid tid par, sslDisabledHttps (create_group tok n pid tid par) = true) ∧
    (∀ tok a, sslDisabledHttpsE (list_groups tok a) = true) ∧
    (∀ tok gid, sslDisabledHttps (get_group tok gid) = true) ∧
    (∀ tok gid, sslDisabledHttps (delete_group tok gid) = true) ∧
    (∀ tok gid pid tid par sh, sslDisabledHttps (patch_group tok gid pid tid par sh) = true) ∧
    (∀ tok, sslDisabledHttps (maps tok) = true) ∧
    (∀ rid ck, sslDisabledHttps (get_threejs rid ck) = true) ∧
    (∀ rid ck, sslDisabledHttps (get_timeline rid ck) = true) ∧
    (∀ gid st ck, sslDisabledHttps (export_csv gid st ck) = true) := by
  refine ⟨fun tok => rfl, fun tok vis g => rfl, ?_, fun tok rid => rfl,
          fun tok rid => rfl, fun tok rid t v g => rfl, fun tok rid => rfl,
          fun tok n pid tid par => rfl, ?_, fun tok gid => rfl,
          fun tok gid => rfl, fun tok gid pid tid par sh => rfl,
          fun tok => rfl, fun rid ck => rfl, fun rid ck => rfl,
          fun gid st ck => rfl⟩
  · intro tok a
    cases h : a.next <;>
      simp [list_replays, countGuard_eq_false, h, sslDisabledHttpsE, sslDisabledHttps]
  · intro tok a
    cases h : a.next <;>
      simp [list_groups, countGuard_eq_false, h, sslDisabledHttpsE, sslDisabledHttps]

end AsyncPychasing
